import Mathlib

/-!
Shallow embedding of the `exceptions` crate (src/lib.rs): a stack-trace
carrying error type `Exception`, the `Throwable` capability trait, the
`IntoThrowable` conversion trait with its four concrete conversions, the
blanket `Box` forwarding implementation, and value-level models of the
propagation macros (`try!`, `catch!`, `print_stack_trace!`).

Machine integers: `line` is a `u32` used only as data (never arithmetic),
so it is modelled as `Nat`.  The printing method writes to stderr; it is
modelled as the pure `String` it writes (and, where a frame property is at
stake, as a state-passing function returning the throwable's final state).
The trait object `Box<Throwable>` / `&Throwable` is modelled by the only
concrete implementor in the crate, `Exception`.
-/

namespace Exceptions

/-- `StackEntry` from src/lib.rs: one recorded propagation hop. -/
structure StackEntry where
  file : String
  line : Nat
  expr : String
deriving DecidableEq, Repr

/-- `Exception` from src/lib.rs: `message: String`, `stack: Vec<StackEntry>`,
`cause: Option<Box<Throwable>>` (trait object modelled by `Exception`). -/
inductive Exception : Type where
  | mk (message : String) (stack : List StackEntry) (cause : Option Exception) : Exception
deriving Repr

/-- Field accessor for `Exception.message`. -/
def Exception.message : Exception → String
  | .mk m _ _ => m

/-- Field accessor for `Exception.stack`. -/
def Exception.stack : Exception → List StackEntry
  | .mk _ s _ => s

/-- Field accessor for `Exception.cause`. -/
def Exception.cause : Exception → Option Exception
  | .mk _ _ c => c

/-- `Exception::new`: message as given, empty trace, no cause. -/
def Exception.new (message : String) : Exception :=
  .mk message [] none

/-- `Exception::new_with_cause`: message as given, empty trace, the given
throwable boxed as the cause. -/
def Exception.new_with_cause (message : String) (cause : Exception) : Exception :=
  .mk message [] (some cause)

/-- `Exception::push_stack`: `self.stack.insert(0, StackEntry{..})`.
Inserting at index 0 of a vector is `cons` on the modelled list. -/
def Exception.push_stack (e : Exception) (file : String) (line : Nat)
    (expr : String) : Exception :=
  .mk e.message (⟨file, line, expr⟩ :: e.stack) e.cause

/-- The `Throwable` trait: the four required operations.  `get_cause`
returns the trait object `Option<&Throwable>`, modelled as `Option Exception`. -/
class Throwable (α : Type) where
  push_stack : α → String → Nat → String → α
  get_stack_trace : α → List StackEntry
  get_message : α → String
  get_cause : α → Option Exception

/-- `impl Throwable for Exception`. -/
instance : Throwable Exception where
  push_stack := Exception.push_stack
  get_stack_trace := Exception.stack
  get_message := Exception.message
  get_cause := Exception.cause

/-- One line of the printed trace: `\tat <expr> [<file>:<line>]\n`,
as written by `writeln!(err, "\tat {} [{}:{}]", s.expr, s.file, s.line)`. -/
def renderEntry (s : StackEntry) : String :=
  "\tat " ++ s.expr ++ " [" ++ s.file ++ ":" ++ toString s.line ++ "]\n"

/-- The text written by the `for s in self.get_stack_trace()` loop of
`print_stack_trace`: the entry lines in trace order, front to back. -/
def renderEntries : List StackEntry → String
  | [] => ""
  | s :: rest => renderEntry s ++ renderEntries rest

/-- The full text written to stderr by `print_stack_trace` on an
`Exception`: the message line, one line per trace entry front-to-back,
then `Caused by: ` followed by the cause's own rendering. -/
def Exception.render : Exception → String
  | .mk m st none =>
      m ++ "\n" ++ renderEntries st
  | .mk m st (some c) =>
      m ++ "\n" ++ renderEntries st ++ ("Caused by: " ++ Exception.render c)

/-- The provided trait method `Throwable::print_stack_trace`, modelled as
the string it writes to stderr: message line, entry lines in trace order,
then, when a cause is present (`if let Some(cause)`), the `Caused by: `
marker and the cause's recursive rendering. -/
def Throwable.print_stack_trace {α : Type} [Throwable α] (x : α) : String :=
  match Throwable.get_cause x with
  | some c =>
      Throwable.get_message x ++ "\n"
        ++ renderEntries (Throwable.get_stack_trace x)
        ++ ("Caused by: " ++ Exception.render c)
  | none =>
      Throwable.get_message x ++ "\n"
        ++ renderEntries (Throwable.get_stack_trace x)

/-- `impl Throwable for Box<T>`: the single-owner heap wrapper. -/
structure Box (α : Type) where
  val : α

/-- The blanket forwarding `impl <T: Throwable+?Sized> Throwable for Box<T>`:
every operation delegates to `(**self)`. -/
instance {α : Type} [Throwable α] : Throwable (Box α) where
  push_stack b file line expr := ⟨Throwable.push_stack b.val file line expr⟩
  get_stack_trace b := Throwable.get_stack_trace b.val
  get_message b := Throwable.get_message b.val
  get_cause b := Throwable.get_cause b.val

/-- The `IntoThrowable<T: Throwable>` trait.  The Rust bound `T: Throwable`
is not recorded as a class parameter here (it would only complicate
instance resolution); every use below instantiates `τ` at a `Throwable`
type. -/
class IntoThrowable (σ : Type) (τ : Type) where
  into_throwable : σ → τ

/-- The blanket identity `impl <T: Throwable> IntoThrowable<T> for T`. -/
instance instIntoThrowableSelf {τ : Type} : IntoThrowable τ τ where
  into_throwable x := x

/-- A Rust `&'r str` value (distinct source type for conversion dispatch). -/
structure Str where
  s : String
deriving DecidableEq, Repr

/-- `str::to_string`. -/
def Str.to_string (x : Str) : String := x.s

/-- `impl <'r> IntoThrowable<Exception> for &'r str`. -/
instance : IntoThrowable Str Exception where
  into_throwable x := Exception.new x.to_string

/-- `impl IntoThrowable<Exception> for String`. -/
instance : IntoThrowable String Exception where
  into_throwable x := Exception.new x

/-- `std::fmt::Error`: a unit struct. -/
structure FmtError where
deriving DecidableEq, Repr

/-- `impl IntoThrowable<Exception> for fmt::Error`. -/
instance : IntoThrowable FmtError Exception where
  into_throwable _ := Exception.new "Formatting Exception"

/-- `std::io::Error`, modelled by the textual description its `Display`
implementation produces. -/
structure IoError where
  description : String
deriving DecidableEq, Repr

/-- `io::Error`'s `to_string` (its `Display` output). -/
def IoError.to_string (e : IoError) : String := e.description

/-- `impl IntoThrowable<Exception> for io::Error`. -/
instance : IntoThrowable IoError Exception where
  into_throwable e := Exception.new e.to_string

/-- Repeated propagation: push each entry of `entries` in order (first
element pushed first), as a sequence of `push_stack` calls. -/
def pushSeq (e : Exception) (entries : List StackEntry) : Exception :=
  entries.foldl (fun acc en => acc.push_stack en.file en.line en.expr) e

/-- Value-level model of the `try!` macro inside an enclosing fallible
function: `k` is the rest of the enclosing function.  On `Ok(e)` the macro
yields the value `e` to the surrounding code; on `Err(e)` it converts `e`
with `into_throwable`, pushes one entry (`file!()`, `line!()`,
`stringify!(expr)`) and early-returns `Err` from the enclosing function,
bypassing `k`. -/
def tryBang {ε α β : Type} [IntoThrowable ε Exception] (r : Except ε α)
    (file : String) (line : Nat) (exprText : String)
    (k : α → Except Exception β) : Except Exception β :=
  match r with
  | .ok a => k a
  | .error e =>
      .error ((IntoThrowable.into_throwable e : Exception).push_stack
        file line exprText)

/-- Value-level model of the single-expression `catch!` macro: like `try!`
but the `Err` is produced as an ordinary value, not an early return. -/
def catchBang {ε α : Type} [IntoThrowable ε Exception] (r : Except ε α)
    (file : String) (line : Nat) (exprText : String) : Except Exception α :=
  match r with
  | .ok a => .ok a
  | .error e =>
      .error ((IntoThrowable.into_throwable e : Exception).push_stack
        file line exprText)

/-- One expression of a multi-expression `catch!` block: its outcome and
the call-site data (`file!()`, `line!()`, `stringify!(expr)`) the macro
records for it. -/
structure CatchItem (ε α : Type) where
  result : Except ε α
  file : String
  line : Nat
  exprText : String

/-- Value-level model of the multi-expression `catch!` macro: a loop that
sets `result = catch!(expr)` for each expression in order and breaks at
the first `Err`; the block's value is the last `result` computed.  An
empty block does not compile in the source (`result` would be
uninitialized), hence the `Option`. -/
def catchSeq {ε α : Type} [IntoThrowable ε Exception] :
    List (CatchItem ε α) → Option (Except Exception α)
  | [] => none
  | i :: rest =>
      match catchBang i.result i.file i.line i.exprText, rest with
      | r, [] => some r
      | .error th, _ :: _ => some (.error th)
      | .ok _, j :: rest2 => catchSeq (j :: rest2)

/-- State-passing model of the `&self` method `print_stack_trace`: it
returns both the text written to stderr and the throwable's state after
the call (the method only calls the read-only getters; the recursive call
on the cause is threaded through the stored cause). -/
def Exception.print_stack_trace_run : Exception → String × Exception
  | .mk m st none =>
      (m ++ "\n" ++ renderEntries st, .mk m st none)
  | .mk m st (some c) =>
      let inner := Exception.print_stack_trace_run c
      (m ++ "\n" ++ renderEntries st ++ ("Caused by: " ++ inner.1),
       .mk m st (some inner.2))

/-- Value-level model of the `print_stack_trace!` macro: it first calls
`$expr.push_stack(file!(), line!(), stringify!(print_stack_trace!($expr)))`
and only then `$expr.print_stack_trace()`.  Returns the mutated throwable
and the text written. -/
def printStackTraceBang (e : Exception) (file : String) (line : Nat)
    (exprText : String) : Exception × String :=
  let e2 := e.push_stack file line ("print_stack_trace!(" ++ exprText ++ ")")
  (e2, Throwable.print_stack_trace e2)

/-! ## Helper lemmas -/

/-- The trace after a sequence of pushes is the reverse of the pushed
entries, in front of whatever trace was already there. -/
theorem pushSeq_stack (entries : List StackEntry) :
    ∀ e : Exception, (pushSeq e entries).stack = entries.reverse ++ e.stack := by
  induction entries with
  | nil => intro e; simp [pushSeq]
  | cons en rest ih =>
      intro e
      have h1 : pushSeq e (en :: rest)
          = pushSeq (e.push_stack en.file en.line en.expr) rest := rfl
      rw [h1, ih]
      simp [Exception.push_stack, Exception.stack]

/-- The trait's provided printing method coincides on `Exception` with the
direct recursive rendering. -/
theorem print_eq_render : ∀ e : Exception,
    Throwable.print_stack_trace e = Exception.render e
  | .mk _ _ none => rfl
  | .mk _ _ (some _) => rfl

/-- The state-passing form of `print_stack_trace` leaves the exception
unchanged and emits exactly the rendering. -/
theorem print_run_spec : ∀ e : Exception,
    (Exception.print_stack_trace_run e).2 = e ∧
    (Exception.print_stack_trace_run e).1 = Exception.render e
  | .mk m st none => ⟨rfl, rfl⟩
  | .mk m st (some c) => by
      have ih := print_run_spec c
      constructor
      · show Exception.mk m st (some (Exception.print_stack_trace_run c).2)
            = Exception.mk m st (some c)
        rw [ih.1]
      · show m ++ "\n" ++ renderEntries st
            ++ ("Caused by: " ++ (Exception.print_stack_trace_run c).1)
            = m ++ "\n" ++ renderEntries st
              ++ ("Caused by: " ++ Exception.render c)
        rw [ih.2]

/-! ## Claims -/

/-- C1: pushing entries e1, ..., eN in order via `push_stack` yields a
trace in reversed order [eN, ..., e1]; each individual push inserts at
position 0 and keeps the existing entries intact and in order (and leaves
the message and cause untouched). -/
theorem push_stack_order (entries : List StackEntry) (e : Exception)
    (f : String) (l : Nat) (x : String) :
    (e.push_stack f l x).stack = ⟨f, l, x⟩ :: e.stack ∧
    (e.push_stack f l x).message = e.message ∧
    (e.push_stack f l x).cause = e.cause ∧
    (pushSeq e entries).stack = entries.reverse ++ e.stack ∧
    (∀ m, Throwable.get_stack_trace (pushSeq (Exception.new m) entries)
      = entries.reverse) := by
  refine ⟨rfl, rfl, rfl, pushSeq_stack entries e, fun m => ?_⟩
  show (pushSeq (Exception.new m) entries).stack = entries.reverse
  rw [pushSeq_stack]
  simp [Exception.new, Exception.stack]

/-- C2: the blanket `IntoThrowable<T> for T` conversion is the identity:
`t.into_throwable()` is `t` itself, with the same message, trace and
cause. -/
theorem into_throwable_identity {τ : Type} [Throwable τ] (t : τ) :
    (IntoThrowable.into_throwable t : τ) = t ∧
    Throwable.get_message (IntoThrowable.into_throwable t : τ)
      = Throwable.get_message t ∧
    Throwable.get_stack_trace (IntoThrowable.into_throwable t : τ)
      = Throwable.get_stack_trace t ∧
    Throwable.get_cause (IntoThrowable.into_throwable t : τ)
      = Throwable.get_cause t :=
  ⟨rfl, rfl, rfl, rfl⟩

/-- C3: each of the four raw-failure conversions yields an `Exception`
with an empty trace, no cause, and exactly the specified message: the
text itself for `&str` and `String`, the literal "Formatting Exception"
for `fmt::Error`, and the error's own textual description for
`io::Error`. -/
theorem raw_conversions :
    (∀ s : Str,
      Throwable.get_message (IntoThrowable.into_throwable s : Exception)
          = s.to_string ∧
      Throwable.get_stack_trace (IntoThrowable.into_throwable s : Exception)
          = [] ∧
      Throwable.get_cause (IntoThrowable.into_throwable s : Exception)
          = none) ∧
    (∀ s : String,
      Throwable.get_message (IntoThrowable.into_throwable s : Exception)
          = s ∧
      Throwable.get_stack_trace (IntoThrowable.into_throwable s : Exception)
          = [] ∧
      Throwable.get_cause (IntoThrowable.into_throwable s : Exception)
          = none) ∧
    (∀ e : FmtError,
      Throwable.get_message (IntoThrowable.into_throwable e : Exception)
          = "Formatting Exception" ∧
      Throwable.get_stack_trace (IntoThrowable.into_throwable e : Exception)
          = [] ∧
      Throwable.get_cause (IntoThrowable.into_throwable e : Exception)
          = none) ∧
    (∀ e : IoError,
      Throwable.get_message (IntoThrowable.into_throwable e : Exception)
          = e.to_string ∧
      Throwable.get_stack_trace (IntoThrowable.into_throwable e : Exception)
          = [] ∧
      Throwable.get_cause (IntoThrowable.into_throwable e : Exception)
          = none) :=
  ⟨fun _ => ⟨rfl, rfl, rfl⟩, fun _ => ⟨rfl, rfl, rfl⟩,
   fun _ => ⟨rfl, rfl, rfl⟩, fun _ => ⟨rfl, rfl, rfl⟩⟩

/-- C4: `new_with_cause(m, c)` has message `m`, empty trace, and a cause
whose `get_message`, `get_stack_trace` and `get_cause` agree with those
of `c`; `new(m)` has message `m`, empty trace, and no cause. -/
theorem cause_preservation (m : String) (c : Exception) :
    (Exception.new_with_cause m c).message = m ∧
    (Exception.new_with_cause m c).stack = [] ∧
    (∃ d, Throwable.get_cause (Exception.new_with_cause m c) = some d ∧
      Throwable.get_message d = Throwable.get_message c ∧
      Throwable.get_stack_trace d = Throwable.get_stack_trace c ∧
      Throwable.get_cause d = Throwable.get_cause c) ∧
    (Exception.new m).message = m ∧
    (Exception.new m).stack = [] ∧
    Throwable.get_cause (Exception.new m) = none :=
  ⟨rfl, rfl, ⟨c, rfl, rfl, rfl, rfl⟩, rfl, rfl, rfl⟩

/-- C5: `print_stack_trace` produces the message line, then one line per
trace entry in trace order formatted as tab, "at ", expression, " [",
file, ":", line, "]", then, when a cause is present, "Caused by: "
followed with no separator by the cause's own recursive rendering; in
particular `new("boom")` prints exactly "boom\n" and
`new_with_cause("wrap", new("root cause"))` prints exactly
"wrap\nCaused by: root cause\n". -/
theorem print_format (m : String) (st : List StackEntry) (c : Exception)
    (f : String) (l : Nat) (x : String) (en : StackEntry)
    (rest : List StackEntry) :
    renderEntry ⟨f, l, x⟩
      = "\t" ++ "at " ++ x ++ " [" ++ f ++ ":" ++ toString l ++ "]" ++ "\n" ∧
    renderEntries (en :: rest) = renderEntry en ++ renderEntries rest ∧
    Throwable.print_stack_trace (Exception.mk m st none)
      = m ++ "\n" ++ renderEntries st ∧
    Throwable.print_stack_trace (Exception.mk m st (some c))
      = m ++ "\n" ++ renderEntries st
          ++ ("Caused by: " ++ Throwable.print_stack_trace c) ∧
    Throwable.print_stack_trace (Exception.new "boom") = "boom\n" ∧
    Throwable.print_stack_trace
        (Exception.new_with_cause "wrap" (Exception.new "root cause"))
      = "wrap\nCaused by: root cause\n" := by
  refine ⟨?_, rfl, rfl, ?_, by decide, by decide⟩
  · show "\tat " ++ x ++ " [" ++ f ++ ":" ++ toString l ++ "]\n" = _
    simp [String.append_assoc]
  · show m ++ "\n" ++ renderEntries st ++ ("Caused by: " ++ Exception.render c)
        = m ++ "\n" ++ renderEntries st
          ++ ("Caused by: " ++ Throwable.print_stack_trace c)
    rw [print_eq_render c]

/-- A prefix of `catch!` expressions that all succeed is skipped over: the
loop assigns `result = catch!(expr)` for each and only breaks on `Err`. -/
theorem catchSeq_append_ok {ε α : Type} [IntoThrowable ε Exception] :
    ∀ (pre L : List (CatchItem ε α)),
      (∀ i ∈ pre, ∃ a, i.result = Except.ok a) → L ≠ [] →
      catchSeq (pre ++ L) = catchSeq L := by
  intro pre
  induction pre with
  | nil => intro L _ _; rfl
  | cons i rest ih =>
      intro L hpre hL
      obtain ⟨a, ha⟩ := hpre i (List.mem_cons_self i rest)
      have hrest : ∀ j ∈ rest, ∃ b, j.result = Except.ok b :=
        fun j hj => hpre j (List.mem_cons_of_mem i hj)
      have hM : rest ++ L ≠ [] := by
        intro hnil
        rcases List.append_eq_nil.mp hnil with ⟨-, h2⟩
        exact hL h2
      obtain ⟨j, M2, hjM⟩ := List.exists_cons_of_ne_nil hM
      have step : catchSeq ((i :: rest) ++ L) = catchSeq (rest ++ L) := by
        show catchSeq (i :: (rest ++ L)) = catchSeq (rest ++ L)
        rw [hjM]
        simp [catchSeq, catchBang, ha]
      rw [step]
      exact ih L hrest hL

/-- A `catch!` block whose first expression fails produces `Err` of the
converted throwable with the entry for that expression pushed. -/
theorem catchSeq_cons_error {ε α : Type} [IntoThrowable ε Exception]
    (it : CatchItem ε α) (post : List (CatchItem ε α)) (err : ε)
    (hit : it.result = Except.error err) :
    catchSeq (it :: post)
      = some (Except.error
          ((IntoThrowable.into_throwable err : Exception).push_stack
            it.file it.line it.exprText)) := by
  cases post with
  | nil => simp [catchSeq, catchBang, hit]
  | cons j rest => simp [catchSeq, catchBang, hit]

/-- C7: a multi-expression `catch!` block evaluates the expressions in
order, skips over successes, and at the first failure converts that raw
failure and pushes exactly one entry (that expression's call-site data),
yielding the `Err` as an ordinary value; the expressions after the first
failure play no part in the result (the outcome is the same for every
`post`). -/
theorem catch_first_failure {ε α : Type} [IntoThrowable ε Exception]
    (pre : List (CatchItem ε α)) (it : CatchItem ε α)
    (post : List (CatchItem ε α)) (err : ε)
    (hpre : ∀ i ∈ pre, ∃ a, i.result = Except.ok a)
    (hit : it.result = Except.error err) :
    catchSeq (pre ++ it :: post)
      = some (Except.error
          ((IntoThrowable.into_throwable err : Exception).push_stack
            it.file it.line it.exprText)) ∧
    ((IntoThrowable.into_throwable err : Exception).push_stack
        it.file it.line it.exprText).stack
      = ⟨it.file, it.line, it.exprText⟩
          :: (IntoThrowable.into_throwable err : Exception).stack ∧
    ((IntoThrowable.into_throwable err : Exception).push_stack
        it.file it.line it.exprText).message
      = (IntoThrowable.into_throwable err : Exception).message := by
  refine ⟨?_, rfl, rfl⟩
  rw [catchSeq_append_ok pre (it :: post) hpre (by simp)]
  exact catchSeq_cons_error it post err hit

/-- Witness for C7: one succeeding expression, then a failing text
expression "disk full", then one further expression that is ignored. -/
theorem catch_first_failure_witness :
    (∀ i ∈ ([⟨Except.ok 1, "a.src", 10, "readFile()"⟩]
        : List (CatchItem String Nat)), ∃ a, i.result = Except.ok a) ∧
    (⟨Except.error "disk full", "b.src", 20, "load()"⟩
        : CatchItem String Nat).result = Except.error "disk full" ∧
    catchSeq (([⟨Except.ok 1, "a.src", 10, "readFile()"⟩]
        : List (CatchItem String Nat))
        ++ (⟨Except.error "disk full", "b.src", 20, "load()"⟩
            : CatchItem String Nat)
        :: [⟨Except.ok 3, "c.src", 30, "save()"⟩])
      = some (Except.error
          ((IntoThrowable.into_throwable "disk full" : Exception).push_stack
            "b.src" 20 "load()")) := by
  have h1 : ∀ i ∈ ([⟨Except.ok 1, "a.src", 10, "readFile()"⟩]
      : List (CatchItem String Nat)), ∃ a, i.result = Except.ok a := by
    intro i hi
    rw [List.mem_singleton] at hi
    subst hi
    exact ⟨1, rfl⟩
  exact ⟨h1, rfl, (catch_first_failure _ _ _ _ h1 rfl).1⟩

/-- C6: `try!` yields the value and continues the enclosing function on
`Ok`; on `Err` it converts the raw failure with `into_throwable`, pushes
exactly one stack entry (file, line, stringified expression) at the front
— leaving message and cause untouched — and early-returns that throwable
as the enclosing function's own `Err`, bypassing the rest `k` of the
function. -/
theorem try_propagation {ε α β : Type} [IntoThrowable ε Exception]
    (a : α) (err : ε) (f : String) (l : Nat) (x : String)
    (k : α → Except Exception β) :
    tryBang (Except.ok a : Except ε α) f l x k = k a ∧
    tryBang (Except.error err) f l x k
      = Except.error
          ((IntoThrowable.into_throwable err : Exception).push_stack f l x) ∧
    ((IntoThrowable.into_throwable err : Exception).push_stack f l x).stack
      = ⟨f, l, x⟩ :: (IntoThrowable.into_throwable err : Exception).stack ∧
    ((IntoThrowable.into_throwable err : Exception).push_stack f l x).message
      = (IntoThrowable.into_throwable err : Exception).message ∧
    ((IntoThrowable.into_throwable err : Exception).push_stack f l x).cause
      = (IntoThrowable.into_throwable err : Exception).cause :=
  ⟨rfl, rfl, rfl, rfl, rfl⟩

/-- C8: the `Box` wrapper is fully transparent: each of the four trait
operations on the box has the same result as on the wrapped value (the
mutating `push_stack` boxes the pushed wrapped value), and hence the
provided `print_stack_trace` also agrees. -/
theorem box_transparent {α : Type} [Throwable α] (t : α)
    (f : String) (l : Nat) (x : String) :
    Throwable.push_stack (Box.mk t) f l x
      = Box.mk (Throwable.push_stack t f l x) ∧
    Throwable.get_stack_trace (Box.mk t) = Throwable.get_stack_trace t ∧
    Throwable.get_message (Box.mk t) = Throwable.get_message t ∧
    Throwable.get_cause (Box.mk t) = Throwable.get_cause t ∧
    Throwable.print_stack_trace (Box.mk t) = Throwable.print_stack_trace t :=
  ⟨rfl, rfl, rfl, rfl, rfl⟩

/-- C9: the `print_stack_trace` method leaves the throwable unchanged —
after the call the whole value (hence its message, trace and cause,
recursively) is what it was before — while writing exactly the text the
trait method denotes. -/
theorem print_preserves_state (e : Exception) :
    (Exception.print_stack_trace_run e).2 = e ∧
    (Exception.print_stack_trace_run e).2.message = e.message ∧
    (Exception.print_stack_trace_run e).2.stack = e.stack ∧
    (Exception.print_stack_trace_run e).2.cause = e.cause ∧
    (Exception.print_stack_trace_run e).1 = Throwable.print_stack_trace e := by
  have h := print_run_spec e
  refine ⟨h.1, by rw [h.1], by rw [h.1], by rw [h.1], ?_⟩
  rw [h.2, print_eq_render]

/-- C10: the `print_stack_trace!` macro first pushes one entry (the
invocation's file and line, with the stringified macro expression as the
expression text) at the front of the trace and only then prints; the
printed text therefore always begins with the message line followed by a
tab-"at " entry line, even when the trace was empty before the call. -/
theorem print_bang_mutates (e : Exception) (f : String) (l : Nat)
    (x : String) :
    (printStackTraceBang e f l x).1
      = e.push_stack f l ("print_stack_trace!(" ++ x ++ ")") ∧
    (printStackTraceBang e f l x).1.stack
      = ⟨f, l, "print_stack_trace!(" ++ x ++ ")"⟩ :: e.stack ∧
    (printStackTraceBang e f l x).2
      = Throwable.print_stack_trace (printStackTraceBang e f l x).1 ∧
    (∃ rest : String,
      (printStackTraceBang e f l x).2 = e.message ++ "\n" ++ ("\tat " ++ rest)) := by
  refine ⟨rfl, rfl, rfl, ?_⟩
  cases e with
  | mk m st c =>
      cases c with
      | none =>
          refine ⟨("print_stack_trace!(" ++ x ++ ")") ++ " [" ++ f ++ ":"
            ++ toString l ++ "]" ++ "\n" ++ renderEntries st, ?_⟩
          show m ++ "\n"
              ++ renderEntries (⟨f, l, "print_stack_trace!(" ++ x ++ ")"⟩ :: st)
              = _
          simp [renderEntries, renderEntry, String.append_assoc,
            Exception.message]
      | some cc =>
          refine ⟨("print_stack_trace!(" ++ x ++ ")") ++ " [" ++ f ++ ":"
            ++ toString l ++ "]" ++ "\n" ++ renderEntries st
            ++ ("Caused by: " ++ Exception.render cc), ?_⟩
          show m ++ "\n"
              ++ renderEntries (⟨f, l, "print_stack_trace!(" ++ x ++ ")"⟩ :: st)
              ++ ("Caused by: " ++ Exception.render cc)
              = _
          simp [renderEntries, renderEntry, String.append_assoc,
            Exception.message]

/-- Witness for C1: two boundary hops over a "disk full" failure leave the
trace in most-recent-first order. -/
theorem push_stack_order_witness :
    (pushSeq (Exception.new "disk full")
        [⟨"a.src", 10, "readFile()"⟩, ⟨"b.src", 20, "load()"⟩]).stack
      = [⟨"b.src", 20, "load()"⟩, ⟨"a.src", 10, "readFile()"⟩] := by
  rw [(push_stack_order [⟨"a.src", 10, "readFile()"⟩, ⟨"b.src", 20, "load()"⟩]
    (Exception.new "disk full") "f.rs" 1 "g()").2.2.2.1]
  decide

/-- Witness for C2: converting an `Exception` returns it unchanged. -/
theorem into_throwable_identity_witness :
    (IntoThrowable.into_throwable (Exception.new "boom") : Exception)
      = Exception.new "boom" :=
  (into_throwable_identity (Exception.new "boom")).1

/-- Witness for C4 at concrete message and cause values. -/
theorem cause_preservation_witness :
    (Exception.new_with_cause "wrap" (Exception.new "root cause")).message
      = "wrap" ∧
    (Exception.new_with_cause "wrap" (Exception.new "root cause")).stack
      = [] ∧
    Throwable.get_cause (Exception.new "wrap") = none := by
  have h := cause_preservation "wrap" (Exception.new "root cause")
  exact ⟨h.1, h.2.1, h.2.2.2.2.2⟩

/-- Witness for C5: the two concrete printing scenarios. -/
theorem print_format_witness :
    Throwable.print_stack_trace (Exception.new "boom") = "boom\n" ∧
    Throwable.print_stack_trace
        (Exception.new_with_cause "wrap" (Exception.new "root cause"))
      = "wrap\nCaused by: root cause\n" := by
  have h := print_format "m" [] (Exception.new "c") "f" 1 "x"
    ⟨"f", 1, "x"⟩ []
  exact ⟨h.2.2.2.2.1, h.2.2.2.2.2⟩

/-- Witness for C6: a failing text expression is converted and pushed. -/
theorem try_propagation_witness :
    tryBang (Except.error "disk full" : Except String Nat)
        "a.src" 10 "readFile()" (fun n => Except.ok n)
      = Except.error
          (Exception.mk "disk full" [⟨"a.src", 10, "readFile()"⟩] none) := by
  have h := try_propagation (0 : Nat) "disk full" "a.src" 10 "readFile()"
    (fun n => (Except.ok n : Except Exception Nat))
  rw [h.2.1]
  rfl

/-- Witness for C8: box transparency at a concrete throwable. -/
theorem box_transparent_witness :
    Throwable.get_message (Box.mk (Exception.new "boom"))
      = Throwable.get_message (Exception.new "boom") ∧
    Throwable.print_stack_trace (Box.mk (Exception.new "boom"))
      = Throwable.print_stack_trace (Exception.new "boom") := by
  have h := box_transparent (Exception.new "boom") "f.rs" 1 "g()"
  exact ⟨h.2.2.1, h.2.2.2.2⟩

/-- Witness for C9: printing a cause-chained exception leaves it intact. -/
theorem print_preserves_state_witness :
    (Exception.print_stack_trace_run
        (Exception.new_with_cause "wrap" (Exception.new "root cause"))).2
      = Exception.new_with_cause "wrap" (Exception.new "root cause") :=
  (print_preserves_state
    (Exception.new_with_cause "wrap" (Exception.new "root cause"))).1

/-- Witness for C10: the macro output on an empty-trace exception still
holds an "at" line. -/
theorem print_bang_mutates_witness :
    (printStackTraceBang (Exception.new "boom") "main.rs" 37 "e").2
      = "boom\n\tat print_stack_trace!(e) [main.rs:37]\n" := by
  rw [(print_bang_mutates (Exception.new "boom") "main.rs" 37 "e").2.2.1]
  rfl

end Exceptions
